import Mathlib

/-!
Verification of the export orchestration engine of `scripts/duckdb_export.py`
(class `DuckDBExporter`): a shallow embedding of its data model, sort-order
selector, scan-spec resolution, blob writing with local fallback, export
ledger, per-table export loop, and run lifecycle, together with theorems
about the documented behaviour.

Modelling conventions:
  * Python dicts from the metadata extractors become structures; a dict field
    read with `.get` that may be absent/None becomes `Option` (for
    `primary_key`) or a default value (for index `type` / `is_unique`).
  * Exceptions become `Except String` results; a `try/except` that swallows
    the exception discards the error value.
  * External effects (the DuckDB engine, S3, the local filesystem, the source
    database) are modelled by explicit environment parameters saying whether
    each call raises and with what message.
  * Wall-clock timestamps and `uuid.uuid4` freshness are not embeddable;
    timestamps are environment-supplied strings and uuids are modelled by a
    fresh-counter (`nextId`) carried in the state.
-/

namespace DuckdbExport

/-- One table column, as produced by the metadata extractors
(`{'name': ..., ...}`); only the `name` field is read by the exporter. -/
structure ColumnInfo where
  name : String
  deriving Repr, DecidableEq

/-- Primary-key description: `{'name', 'type', 'columns'}` from
`get_primary_key`; the exporter reads only `columns`. -/
structure KeyInfo where
  name : String := ""
  columns : List String := []
  deriving Repr, DecidableEq

/-- One index description `{'name', 'type', 'is_unique', 'columns'}` from
`get_indexes`. -/
structure IndexInfo where
  name : String := ""
  type : String := ""
  is_unique : Bool := false
  columns : List String := []
  deriving Repr, DecidableEq

/-- One table entry of the extracted metadata, as consumed by
`DuckDBExporter` (`schema`, `name`, `full_name`, `columns`, `primary_key`,
`indexes`, `ddl`). A `primary_key` of `none` models both an absent key and
Python `None` (both falsy in `table_info.get('primary_key')`). -/
structure TableInfo where
  schema : String
  name : String
  full_name : String
  columns : List ColumnInfo := []
  primary_key : Option KeyInfo := none
  indexes : List IndexInfo := []
  ddl : String := ""
  deriving Repr, DecidableEq

/-- `f'"{col}"'` — double-quote an identifier for the generated SQL.
The source interpolates the column name verbatim (no escaping of embedded
double quotes). -/
def quoteIdent (col : String) : String := "\"" ++ col ++ "\""

/-- `', '.join([f'"{col}"' for col in cols])`. -/
def joinQuoted (cols : List String) : String :=
  String.intercalate ", " (cols.map quoteIdent)

/-- First index whose `type` equals `'CLUSTERED'` (the first `for` loop of
`get_table_sort_order`). -/
def findClusteredIdx (idxs : List IndexInfo) : Option IndexInfo :=
  idxs.find? (fun i => i.type == "CLUSTERED")

/-- First index whose `is_unique` is truthy (the second `for` loop of
`get_table_sort_order`). -/
def findUniqueIdx (idxs : List IndexInfo) : Option IndexInfo :=
  idxs.find? (fun i => i.is_unique)

/-- `DuckDBExporter.get_table_sort_order` (duckdb_export.py lines 269-300):
primary key first, then first clustered index, then first unique index,
then the first column, else the empty string. -/
def get_table_sort_order (t : TableInfo) : String :=
  match t.primary_key with
  | some pk => joinQuoted pk.columns
  | none =>
    match findClusteredIdx t.indexes with
    | some idx => joinQuoted idx.columns
    | none =>
      match findUniqueIdx t.indexes with
      | some idx => joinQuoted idx.columns
      | none =>
        match t.columns with
        | c :: _ => quoteIdent c.name
        | [] => ""

/-- `f"{self.s3_bucket_path}/{schema}/{table}/{table}.parquet"`
(duckdb_export.py line 314). -/
def table_s3_path (bucket schema table : String) : String :=
  bucket ++ "/" ++ schema ++ "/" ++ table ++ "/" ++ table ++ ".parquet"

/-- A string containing no path separator. -/
def noSlash (s : String) : Prop := '/' ∉ s.data

instance (s : String) : Decidable (noSlash s) := by
  unfold noSlash; infer_instance

/-- `content.replace("'", "''")` on the character list: double every single
quote (the SQL-literal escaping used throughout `duckdb_export.py`). -/
def escapeChars : List Char → List Char
  | [] => []
  | c :: rest =>
    if c = '\x27' then '\x27' :: '\x27' :: escapeChars rest
    else c :: escapeChars rest

/-- `s.replace("'", "''")` at the string level. -/
def escapeSq (s : String) : String := ⟨escapeChars s.data⟩

/-- A string containing no single-quote character. -/
def noQuote (s : String) : Prop := '\x27' ∉ s.data

instance (s : String) : Decidable (noQuote s) := by
  unfold noQuote; infer_instance

/-- `s.replace('s3://', 'local_export/')` on the character list: Python
`str.replace` rewrites every (non-overlapping, leftmost-first) occurrence,
not only a leading one. -/
def replaceS3Chars : List Char → List Char
  | 's' :: '3' :: ':' :: '/' :: '/' :: rest => "local_export/".data ++ replaceS3Chars rest
  | c :: rest => c :: replaceS3Chars rest
  | [] => []

/-- `s3_path.replace('s3://', 'local_export/')` at the string level. -/
def pyReplaceS3 (s : String) : String := ⟨replaceS3Chars s.data⟩

/-- Whether the character list contains an occurrence of `s3://`. -/
def containsS3 : List Char → Bool
  | 's' :: '3' :: ':' :: '/' :: '/' :: _ => true
  | _ :: rest => containsS3 rest
  | [] => false

/-- `os.path.dirname` for POSIX paths: the part before the final separator,
with trailing separators stripped unless the head is all separators. -/
def dirname (p : String) : String :=
  let head := (p.data.reverse.dropWhile (fun c => c ≠ '/')).reverse
  if head.isEmpty then ""
  else if head.all (fun c => c = '/') then ⟨head⟩
  else ⟨(head.reverse.dropWhile (fun c => c = '/')).reverse⟩

/-- The environment configuration consumed by `DuckDBExporter.__init__`
(the fields the export path reads; `port` is kept as the string it is
interpolated as). -/
structure Config where
  db_type : String
  server : String := ""
  database : String := ""
  port : String := ""
  auth_type : String := ""
  username : String := ""
  password : String := ""
  s3_bucket_path : String := ""
  deriving Repr, DecidableEq

/-- The single-quote character as a one-character string; the generated SQL
templates below are written as concatenations with the quote delimiters
isolated, which denotes exactly the f-string text of the source. -/
def sq : String := "\x27"

/-- The SQL text built by `_save_to_s3` (duckdb_export.py lines 186-190):
the content is escaped, the destination path is interpolated verbatim. -/
def save_query (s3_path content : String) : String :=
  "\n        COPY (SELECT " ++ sq ++ escapeSq content ++ sq ++ " AS content)\n        TO " ++
  sq ++ s3_path ++ sq ++ "\n        (FORMAT " ++ sq ++ "csv" ++ sq ++ ", HEADER false);\n        "

/-- The same COPY statement with the escaping rule applied to every
interpolated string, destination path included.  This definition follows
the words of the specification (all interpolation MUST apply the escaping
rule), for comparison with `save_query` as the source builds it. -/
def save_query_spec (s3_path content : String) : String :=
  "\n        COPY (SELECT " ++ sq ++ escapeSq content ++ sq ++ " AS content)\n        TO " ++
  sq ++ escapeSq s3_path ++ sq ++ "\n        (FORMAT " ++ sq ++ "csv" ++ sq ++ ", HEADER false);\n        "

/-- The INSERT built by `_log_export_start` (lines 227-230): schema, table,
full name and path are escaped; the uuid and timestamp are interpolated
verbatim. -/
def insert_log_query (log_id schema table full_name s3_path started_at : String) : String :=
  "\n            INSERT INTO export_logs (id, schema, table_name, full_name, s3_path, status, message, started_at)\n            VALUES (" ++
  sq ++ log_id ++ sq ++ ", " ++ sq ++ escapeSq schema ++ sq ++ ", " ++
  sq ++ escapeSq table ++ sq ++ ", " ++ sq ++ escapeSq full_name ++ sq ++ ", " ++
  sq ++ escapeSq s3_path ++ sq ++ ", " ++ sq ++ "in_progress" ++ sq ++ ", " ++
  sq ++ "" ++ sq ++ ", " ++ sq ++ started_at ++ sq ++ ");\n        "

/-- The UPDATE built by `_log_export_end` (lines 237-241): the message is
escaped; status, timestamp and id are interpolated verbatim. -/
def update_log_query (log_id status message finished_at : String) : String :=
  "\n            UPDATE export_logs\n            SET status = " ++ sq ++ status ++ sq ++
  ", message = " ++ sq ++ escapeSq message ++ sq ++ ", finished_at = " ++ sq ++ finished_at ++ sq ++
  "\n            WHERE id = " ++ sq ++ log_id ++ sq ++ ";\n        "

/-- ODBC connection string for SQL Server (lines 329-332). -/
def sqlserver_odbc_conn (cfg : Config) : String :=
  if cfg.auth_type = "windows" then
    "Driver=\x7bODBC Driver 17 for SQL Server\x7d;Server=" ++ cfg.server ++ "," ++ cfg.port ++
    ";Database=" ++ cfg.database ++ ";Trusted_Connection=yes;"
  else
    "Driver=\x7bODBC Driver 17 for SQL Server\x7d;Server=" ++ cfg.server ++ "," ++ cfg.port ++
    ";Database=" ++ cfg.database ++ ";Uid=" ++ cfg.username ++ ";Pwd=" ++ cfg.password ++ ";"

/-- ODBC connection string for Oracle (line 334). -/
def oracle_odbc_conn (cfg : Config) : String :=
  "Driver=\x7bOracle in OraClient19Home1\x7d;DBQ=" ++ cfg.server ++ ":" ++ cfg.port ++ "/" ++
  cfg.database ++ ";Uid=" ++ cfg.username ++ ";Pwd=" ++ cfg.password ++ ";"

/-- `SELECT * FROM [schema].[table]` (SQL Server) or
`SELECT * FROM "schema"."table"` (Oracle), plus ORDER BY when the sort
order is non-empty (lines 338-341); identifiers interpolated verbatim. -/
def build_table_query (db_type schema table sort_order : String) : String :=
  let base :=
    if db_type = "sqlserver" then "SELECT * FROM [" ++ schema ++ "].[" ++ table ++ "]"
    else "SELECT * FROM \"" ++ schema ++ "\".\"" ++ table ++ "\""
  if sort_order ≠ "" then base ++ " ORDER BY " ++ sort_order else base

/-- The `odbc_query(connection=..., query=...)` scan text (lines 352-357);
both interpolated strings are escaped. -/
def odbc_scan_function (conn query : String) : String :=
  "\n                    odbc_query(\n                        connection=" ++ sq ++ escapeSq conn ++
  sq ++ ",\n                        query=" ++ sq ++ escapeSq query ++ sq ++ "\n                    )\n                "

/-- `host=... port=... dbname=... user=... password=...` (line 361). -/
def pg_conn_string (cfg : Config) : String :=
  "host=" ++ cfg.server ++ " port=" ++ cfg.port ++ " dbname=" ++ cfg.database ++
  " user=" ++ cfg.username ++ " password=" ++ cfg.password

/-- The `postgres_scan(...)` scan text (lines 365-371); connection, schema
and table are each escaped. -/
def postgres_scan_function (conn schema table : String) : String :=
  "\n                    postgres_scan(\n                        " ++ sq ++ escapeSq conn ++ sq ++
  ",\n                        " ++ sq ++ escapeSq schema ++ sq ++ ",\n                        " ++
  sq ++ escapeSq table ++ sq ++ "\n                    )\n                "

/-- The engine-specific read specification produced once per table
(`scan_function` in `export_table_data`). -/
inductive ScanSpec where
  | odbc (scan_function : String)
  | postgres (scan_function : String)
  deriving Repr, DecidableEq

/-- Scan-adapter resolution inside `export_table_data` (lines 326-374):
SQL Server and Oracle get an ODBC query, PostgreSQL a native scan, anything
else raises `ValueError(f"Scanner not available for {db_type}")`. -/
def build_scan_spec (cfg : Config) (t : TableInfo) (sort_order : String) : Except String ScanSpec :=
  if cfg.db_type = "sqlserver" ∨ cfg.db_type = "oracle" then
    let odbc_conn := if cfg.db_type = "sqlserver" then sqlserver_odbc_conn cfg else oracle_odbc_conn cfg
    let table_query := build_table_query cfg.db_type t.schema t.name sort_order
    .ok (.odbc (odbc_scan_function odbc_conn table_query))
  else if cfg.db_type = "postgresql" then
    .ok (.postgres (postgres_scan_function (pg_conn_string cfg) t.schema t.name))
  else
    .error ("Scanner not available for " ++ cfg.db_type)

/-- Which metadata extractor `connect_to_source` instantiates. -/
inductive ExtractorKind where
  | sqlserver
  | postgresql
  | oracle
  deriving Repr, DecidableEq

/-- `DuckDBExporter.connect_to_source` engine dispatch (lines 107-140):
an unknown engine raises `ValueError(f"Unsupported database type: ...")`
before any connection is attempted. -/
def connect_to_source (db_type : String) : Except String ExtractorKind :=
  if db_type = "sqlserver" then .ok .sqlserver
  else if db_type = "postgresql" then .ok .postgresql
  else if db_type = "oracle" then .ok .oracle
  else .error ("Unsupported database type: " ++ db_type)

/-- One row of the in-memory `export_logs` table (`_init_progress_table`).
The uuid is modelled as the fresh counter value that produced it; the two
timestamp columns are not modelled (wall clock). -/
structure LedgerEntry where
  id : Nat
  schema : String
  table_name : String
  full_name : String
  s3_path : String
  status : String
  message : String
  deriving Repr, DecidableEq

/-- The exporter state the ledger operations mutate: the `export_logs`
rows in insertion order plus the uuid fresh-counter. -/
structure ExportState where
  logs : List LedgerEntry := []
  nextId : Nat := 0
  deriving Repr, DecidableEq

/-- `_log_export_start` (lines 219-231): insert one `in_progress` row with
a fresh id and return the id. -/
def log_export_start (st : ExportState) (t : TableInfo) (s3_path : String) :
    ExportState × Nat :=
  let entry : LedgerEntry :=
    { id := st.nextId, schema := t.schema, table_name := t.name, full_name := t.full_name,
      s3_path := s3_path, status := "in_progress", message := "" }
  ({ logs := st.logs ++ [entry], nextId := st.nextId + 1 }, st.nextId)

/-- `_log_export_end` (lines 233-241): UPDATE status and message of the
rows whose id matches; never removes a row. -/
def log_export_end (st : ExportState) (log_id : Nat) (status message : String) : ExportState :=
  { st with logs := st.logs.map (fun e =>
      if e.id = log_id then { e with status := status, message := message } else e) }

/-- External fates of one table export: whether `_log_export_start` raises,
whether the DuckDB COPY raises (and with what `str(e)`), and whether
`_log_export_end` raises. -/
structure TableEnv where
  startLogErr : Option String := none
  transferErr : Option String := none
  endLogErr : Bool := false

/-- The `try: if log_id: self._log_export_end(...) except: pass` pattern of
`export_table_data`: no row to finish when start-logging failed, no state
change when the UPDATE itself raises. -/
def finish_log (st : ExportState) (log_id : Option Nat) (status message : String)
    (endLogErr : Bool) : ExportState :=
  match log_id with
  | none => st
  | some lid => if endLogErr then st else log_export_end st lid status message

/-- `DuckDBExporter.export_table_data` (lines 302-411): compute sort order
and destination path, best-effort start a ledger row, resolve the scan
adapter (raising for unknown engines), run the transfer, finish the ledger
row `success`/`failed`, and re-raise any transfer error to the caller. -/
def export_table_data (cfg : Config) (st : ExportState) (t : TableInfo) (env : TableEnv) :
    ExportState × Except String Unit :=
  let sort_order := get_table_sort_order t
  let path := table_s3_path cfg.s3_bucket_path t.schema t.name
  let started : ExportState × Option Nat :=
    match env.startLogErr with
    | some _ => (st, none)
    | none =>
      let r := log_export_start st t path
      (r.1, some r.2)
  match build_scan_spec cfg t sort_order with
  | .error e => (finish_log started.1 started.2 "failed" e env.endLogErr, .error e)
  | .ok _ =>
    match env.transferErr with
    | some e => (finish_log started.1 started.2 "failed" e env.endLogErr, .error e)
    | none =>
      (finish_log started.1 started.2 "success" ("Exported to " ++ path) env.endLogErr, .ok ())

/-- The per-table loop of `export_all_tables` (lines 417-424): each table
export is attempted in discovery order and any raised error is caught and
discarded, so the loop always reaches every table. -/
def export_tables_loop (cfg : Config) (st : ExportState) (tables : List TableInfo)
    (envs : Nat → TableEnv) (i : Nat) : ExportState :=
  match tables with
  | [] => st
  | t :: rest => export_tables_loop cfg (export_table_data cfg st t (envs i)).1 rest envs (i + 1)

/-- Observable artifact-store operations performed by `_save_to_s3`. -/
inductive BlobEffect where
  | remote (path content : String)
  | mkdirs (dir : String)
  | localWrite (path content : String)
  deriving Repr, DecidableEq

/-- `DuckDBExporter._save_to_s3` (lines 180-201): try the DuckDB remote
write; on failure rewrite `s3://` to `local_export/`, create the parent
directory and write the content verbatim.  The fallback block is not
guarded by its own `try`, so a fallback failure raises to the caller. -/
def save_to_s3 (s3_path content : String) (remoteFails localFails : Bool) :
    List BlobEffect × Except String Unit :=
  if remoteFails then
    if localFails then ([], .error ("fallback write failed: " ++ s3_path))
    else
      let lp := pyReplaceS3 s3_path
      ([.mkdirs (dirname lp), .localWrite lp content], .ok ())
  else ([.remote s3_path content], .ok ())

/-- Sequence `_save_to_s3` over a list of (path, content) artifacts,
stopping at the first call that raises. -/
def saveSeq (items : List (String × String)) (remoteFails localFails : String → Bool) :
    List BlobEffect × Except String Unit :=
  match items with
  | [] => ([], .ok ())
  | (p, c) :: rest =>
    let r := save_to_s3 p c (remoteFails p) (localFails p)
    match r.2 with
    | .error e => (r.1, .error e)
    | .ok _ =>
      let r2 := saveSeq rest remoteFails localFails
      (r.1 ++ r2.1, r2.2)

/-- A view, procedure or function definition artifact saved by
`extract_metadata`. -/
structure ArtifactInfo where
  schema : String
  name : String
  definition : String
  deriving Repr, DecidableEq

/-- The aggregate returned by `extract_complete_metadata`, restricted to
the keys `extract_metadata` and `export_all_tables` read. -/
structure Metadata where
  tables : List TableInfo := []
  views : List ArtifactInfo := []
  stored_procedures : List ArtifactInfo := []
  procedures : List ArtifactInfo := []
  functions : List ArtifactInfo := []
  deriving Repr, DecidableEq

/-- The (path, content) artifacts written by `extract_metadata`
(lines 148-175), in write order: the metadata JSON, each table DDL, each
view definition, then stored procedures, procedures and functions. -/
def artifactItems (cfg : Config) (md : Metadata) (ts mdJson : String) :
    List (String × String) :=
  let mp := cfg.s3_bucket_path ++ "/metadata"
  ((mp ++ "/metadata_" ++ ts ++ ".json", mdJson)
      :: md.tables.map (fun t => (mp ++ "/tables/" ++ t.schema ++ "/" ++ t.name ++ ".sql", t.ddl)))
    ++ md.views.map (fun v => (mp ++ "/views/" ++ v.schema ++ "/" ++ v.name ++ ".sql", v.definition))
    ++ (md.stored_procedures ++ md.procedures ++ md.functions).map
        (fun pr => (mp ++ "/procedures/" ++ pr.schema ++ "/" ++ pr.name ++ ".sql", pr.definition))

/-- External fates of one whole run: whether DuckDB initialization raises,
whether the source connection raises, what metadata extraction returns,
the serialized metadata JSON and timestamp (environment inputs), which
blob writes fail remotely or locally, and the per-table fates. -/
structure RunEnv where
  initErr : Option String := none
  connectErr : Option String := none
  metadataResult : Except String Metadata := .ok {}
  metadataJson : String := ""
  timestamp : String := "ts"
  blobRemoteFails : String → Bool := fun _ => false
  blobLocalFails : String → Bool := fun _ => false
  tableEnvs : Nat → TableEnv := fun _ => {}

/-- What a run leaves behind: the process exit code, the final ledger rows
and the artifact-store operations performed. -/
structure RunResult where
  exitCode : Nat
  logs : List LedgerEntry
  blobEffects : List BlobEffect
  deriving Repr, DecidableEq

/-- `DuckDBExporter.run` (lines 435-472): initialize DuckDB, dispatch and
connect to the source, extract and persist metadata, then export all
tables.  Any exception escaping those steps is caught and turns into
`sys.exit(1)`; the per-table loop swallows its own failures, so only the
setup and metadata phases decide the exit code. -/
def run (cfg : Config) (env : RunEnv) : RunResult :=
  match env.initErr with
  | some _ => { exitCode := 1, logs := [], blobEffects := [] }
  | none =>
    match connect_to_source cfg.db_type with
    | .error _ => { exitCode := 1, logs := [], blobEffects := [] }
    | .ok _ =>
      match env.connectErr with
      | some _ => { exitCode := 1, logs := [], blobEffects := [] }
      | none =>
        match env.metadataResult with
        | .error _ => { exitCode := 1, logs := [], blobEffects := [] }
        | .ok md =>
          let saves := saveSeq (artifactItems cfg md env.timestamp env.metadataJson)
            env.blobRemoteFails env.blobLocalFails
          match saves.2 with
          | .error _ => { exitCode := 1, logs := [], blobEffects := saves.1 }
          | .ok _ =>
            let st := export_tables_loop cfg {} md.tables env.tableEnvs 0
            { exitCode := 0, logs := st.logs, blobEffects := saves.1 }

/-- The ledger row a table export is expected to end with when the ledger
itself is healthy and the engine is supported: `failed` carrying `str(e)`
when the transfer raised, `success` with the destination otherwise.  This
characterization follows the specification text, for comparison with what
`export_tables_loop` actually produces. -/
def expectedEntry (bucket : String) (n : Nat) (t : TableInfo) (env : TableEnv) : LedgerEntry :=
  let path := table_s3_path bucket t.schema t.name
  { id := n, schema := t.schema, table_name := t.name, full_name := t.full_name, s3_path := path,
    status := match env.transferErr with | some _ => "failed" | none => "success",
    message := match env.transferErr with | some e => e | none => "Exported to " ++ path }

/-- One expected ledger row per table, in discovery order, with
consecutive fresh ids. -/
def expectedEntries (bucket : String) (n : Nat) (tables : List TableInfo)
    (envs : Nat → TableEnv) (i : Nat) : List LedgerEntry :=
  match tables with
  | [] => []
  | t :: rest => expectedEntry bucket n t (envs i) :: expectedEntries bucket (n + 1) rest envs (i + 1)

/-- The engines the exporter knows how to scan. -/
def supportedEngine (cfg : Config) : Prop :=
  cfg.db_type = "sqlserver" ∨ cfg.db_type = "postgresql" ∨ cfg.db_type = "oracle"

/-- SQL-literal scanner for the generated statements: split a statement
into the list of its single-quoted literal values, reading `''` inside a
literal as one escaped quote.  The Bool flag says whether the scan is
inside a literal; `cur` is the current literal, `acc` the finished ones.
Returns `none` on an unterminated literal.  Used to state that
interpolated strings reach the generated text with the escaping rule
applied (the literals parse back to the raw inputs). -/
def scanSql : List Char → Bool → List Char → List (List Char) → Option (List String)
  | [], false, _, acc => some (acc.reverse.map (fun l => ⟨l⟩))
  | [], true, _, _ => none
  | c :: rest, false, cur, acc =>
    if c = '\x27' then scanSql rest true [] acc else scanSql rest false cur acc
  | c :: c2 :: rest2, true, cur, acc =>
    if c = '\x27' then
      if c2 = '\x27' then scanSql rest2 true (cur ++ ['\x27']) acc
      else scanSql (c2 :: rest2) false [] (cur :: acc)
    else scanSql (c2 :: rest2) true (cur ++ [c]) acc
  | [c], true, cur, acc =>
    if c = '\x27' then some ((cur :: acc).reverse.map (fun l => ⟨l⟩)) else none

/-- Outside-a-literal entry point of the scanner. -/
def scanLits (cs : List Char) (acc : List (List Char)) : Option (List String) :=
  scanSql cs false [] acc

/-- Inside-a-literal state of the scanner. -/
def scanIn (cs cur : List Char) (acc : List (List Char)) : Option (List String) :=
  scanSql cs true cur acc

/-- The single-quoted literal values of a generated SQL statement. -/
def parseLits (q : String) : Option (List String) := scanLits q.data []

/-- A concrete SQL Server configuration used to instantiate theorems. -/
def exCfg : Config :=
  { db_type := "sqlserver", server := "srv", database := "db", port := "1433",
    auth_type := "sql", username := "u", password := "pw", s3_bucket_path := "s3://bkt" }

/-- A configuration with an engine the exporter does not know. -/
def mysqlCfg : Config := { db_type := "mysql" }

/-- A minimal table descriptor. -/
def exTable : TableInfo := { schema := "s", name := "t", full_name := "s.t" }

/-- A table with a two-column primary key, a clustered index and columns:
the primary key must win. -/
def pkTable : TableInfo :=
  { schema := "dbo", name := "o", full_name := "dbo.o", columns := [{ name := "z" }],
    primary_key := some { name := "pk", columns := ["a", "b"] },
    indexes := [{ name := "ix", type := "CLUSTERED", columns := ["z"] }] }

/-- A table without a primary key whose second index is the clustered one. -/
def clusteredTable : TableInfo :=
  { schema := "dbo", name := "c", full_name := "dbo.c", columns := [{ name := "a" }],
    primary_key := none,
    indexes := [{ name := "ixu", type := "NONCLUSTERED", is_unique := true, columns := ["u1", "u2"] },
                { name := "ixc", type := "CLUSTERED", columns := ["k"] }] }

/-- A table whose primary key is present but records no columns, while the
table itself has both a column and a clustered index. -/
def emptyPkTable : TableInfo :=
  { schema := "s", name := "t", full_name := "s.t", columns := [{ name := "c1" }],
    primary_key := some { name := "pk", columns := [] },
    indexes := [{ name := "ix", type := "CLUSTERED", columns := ["z"] }] }

/-- Three tables for the three-table isolation scenario. -/
def exTable1 : TableInfo :=
  { schema := "sales", name := "orders", full_name := "sales.orders",
    primary_key := some { name := "pk", columns := ["order_id"] } }

def exTable2 : TableInfo :=
  { schema := "sales", name := "items", full_name := "sales.items",
    primary_key := some { name := "pk", columns := ["id"] } }

def exTable3 : TableInfo :=
  { schema := "sales", name := "legacy", full_name := "sales.legacy",
    columns := [{ name := "c" }] }

/-- Per-table fates where exactly the second table's transfer raises. -/
def exEnvs : Nat → TableEnv :=
  fun j => if j = 1 then { transferErr := some "boom" } else {}

/-- A run environment whose single table export raises while the ledger
operations succeed. -/
def c7RunEnv : RunEnv :=
  { metadataResult := .ok { tables := [exTable] },
    tableEnvs := fun _ => { transferErr := some "x" } }

/-- The ledger row the `c7RunEnv` run ends with. -/
def c7Entry : LedgerEntry :=
  { id := 0, schema := "s", table_name := "t", full_name := "s.t",
    s3_path := "s3://bkt/s/t/t.parquet", status := "failed", message := "x" }

/-- A run environment where every remote blob write and every local
fallback write fails. -/
def c5RunEnv : RunEnv :=
  { metadataResult := .ok {},
    blobRemoteFails := fun _ => true, blobLocalFails := fun _ => true }

/-- The row `_log_export_start` inserts for a table at a given path. -/
def startEntry (st : ExportState) (t : TableInfo) (p : String) : LedgerEntry :=
  { id := st.nextId, schema := t.schema, table_name := t.name, full_name := t.full_name,
    s3_path := p, status := "in_progress", message := "" }

theorem data_append (s t : String) : (s ++ t).data = s.data ++ t.data := by
  cases s; cases t; rfl

theorem splitSepUnique : ∀ (a c b d : List Char), '/' ∉ a → '/' ∉ c →
    a ++ '/' :: b = c ++ '/' :: d → a = c ∧ b = d := by
  intro a
  induction a with
  | nil =>
    intro c b d _ hc h
    cases c with
    | nil => simpa using h
    | cons y ys =>
      simp only [List.nil_append, List.cons_append, List.cons.injEq] at h
      rw [← h.1] at hc
      simp at hc
  | cons x xs ih =>
    intro c b d ha hc h
    cases c with
    | nil =>
      simp only [List.cons_append, List.nil_append, List.cons.injEq] at h
      rw [h.1] at ha
      simp at ha
    | cons y ys =>
      simp only [List.cons_append, List.cons.injEq] at h
      have hxs : '/' ∉ xs := fun hm => ha (List.mem_cons_of_mem _ hm)
      have hys : '/' ∉ ys := fun hm => hc (List.mem_cons_of_mem _ hm)
      obtain ⟨h1, h2⟩ := ih ys b d hxs hys h.2
      exact ⟨by rw [h.1, h1], h2⟩

theorem mk_data (s : String) : (⟨s.data⟩ : String) = s := by
  cases s; rfl

theorem data_inj {s t : String} (h : s.data = t.data) : s = t := by
  cases s; cases t; simp_all

/-- C2: for every table descriptor whose primary key is present,
`get_table_sort_order` returns exactly the primary key columns rendered in
their recorded (ordinal) order, and the result does not depend on which
indexes the table also has. -/
theorem C2_primary_key_sort_order (t : TableInfo) (pk : KeyInfo)
    (h : t.primary_key = some pk) :
    get_table_sort_order t = joinQuoted pk.columns
    ∧ ∀ idxs : List IndexInfo,
        get_table_sort_order { t with indexes := idxs } = joinQuoted pk.columns := by
  refine ⟨?_, fun idxs => ?_⟩ <;> simp [get_table_sort_order, h]

/-- Witness for C2: the two-column primary key of `pkTable` wins over its
clustered index. -/
theorem C2_primary_key_sort_order_witness :
    get_table_sort_order pkTable = "\"a\", \"b\"" := by
  have h := C2_primary_key_sort_order pkTable { name := "pk", columns := ["a", "b"] } rfl
  exact h.1.trans (by decide)

/-- C3: for every table descriptor without a primary key the selector
falls back, in order, to the first clustered index, then the first unique
index, then the first column, and returns the empty ordering for a table
with no columns. -/
theorem C3_sort_order_fallback (t : TableInfo) (h : t.primary_key = none) :
    (∀ idx, findClusteredIdx t.indexes = some idx →
        get_table_sort_order t = joinQuoted idx.columns)
    ∧ (findClusteredIdx t.indexes = none →
        (∀ idx, findUniqueIdx t.indexes = some idx →
            get_table_sort_order t = joinQuoted idx.columns)
        ∧ (findUniqueIdx t.indexes = none →
            (∀ c rest, t.columns = c :: rest →
                get_table_sort_order t = quoteIdent c.name)
            ∧ (t.columns = [] → get_table_sort_order t = ""))) := by
  refine ⟨fun idx hc => ?_, fun hc =>
    ⟨fun idx hu => ?_, fun hu => ⟨fun c rest hcol => ?_, fun hcol => ?_⟩⟩⟩
  · simp [get_table_sort_order, h, hc]
  · simp [get_table_sort_order, h, hc, hu]
  · simp [get_table_sort_order, h, hc, hu, hcol]
  · simp [get_table_sort_order, h, hc, hu, hcol]

/-- Witness for C3: with no primary key, the clustered index of
`clusteredTable` wins even though a unique index comes first in the list. -/
theorem C3_sort_order_fallback_witness :
    get_table_sort_order clusteredTable = "\"k\"" := by
  have h := C3_sort_order_fallback clusteredTable rfl
  have h2 := h.1 { name := "ixc", type := "CLUSTERED", columns := ["k"] } (by decide)
  exact h2.trans (by decide)

/-- C9: a present primary key with an empty recorded column list makes the
selector return the empty ordering at once; the index and column rules are
not consulted (stripping them changes nothing). -/
theorem C9_empty_pk_short_circuit (t : TableInfo) (pk : KeyInfo)
    (hpk : t.primary_key = some pk) (hcols : pk.columns = []) :
    get_table_sort_order t = ""
    ∧ get_table_sort_order t
        = get_table_sort_order { t with columns := [], indexes := [] } := by
  have h1 : get_table_sort_order t = "" := by
    simp [get_table_sort_order, hpk, hcols, joinQuoted] <;> decide
  have h2 : get_table_sort_order { t with columns := [], indexes := [] } = "" := by
    simp [get_table_sort_order, hpk, hcols, joinQuoted] <;> decide
  exact ⟨h1, h1.trans h2.symm⟩

/-- Witness for C9: `emptyPkTable` has a column and a clustered index, yet
its empty-column primary key forces the empty ordering. -/
theorem C9_empty_pk_short_circuit_witness :
    get_table_sort_order emptyPkTable = "" := by
  have h := C9_empty_pk_short_circuit emptyPkTable { name := "pk", columns := [] } rfl rfl
  exact h.1

/-- C4 counterexample: two distinct (schema, table) pairs whose components
contain the path separator collide on the same destination path, so the
path construction is not injective over all string pairs. -/
theorem C4_counterexample :
    table_s3_path "b" "x/y/y" "y" = table_s3_path "b" "x" "y/y"
    ∧ (("x/y/y", "y") : String × String) ≠ ("x", "y/y") := by
  exact ⟨by decide, by decide⟩

/-- C4 amended: destination path construction is injective for every two
(schema, table) pairs in which neither component contains the path
separator `/`. -/
theorem C4_path_injective_amended (b s1 t1 s2 t2 : String)
    (hs1 : noSlash s1) (ht1 : noSlash t1) (hs2 : noSlash s2) (ht2 : noSlash t2)
    (h : table_s3_path b s1 t1 = table_s3_path b s2 t2) : s1 = s2 ∧ t1 = t2 := by
  have hs1' : '/' ∉ s1.data := hs1
  have ht1' : '/' ∉ t1.data := ht1
  have hs2' : '/' ∉ s2.data := hs2
  have ht2' : '/' ∉ t2.data := ht2
  have hd := congrArg String.data h
  have hslash : ("/" : String).data = ['/'] := rfl
  simp only [table_s3_path, data_append, hslash, List.append_assoc,
    List.singleton_append] at hd
  have hd1 := List.append_cancel_left hd
  have hd2 : s1.data ++ '/' :: (t1.data ++ '/' :: (t1.data ++ (".parquet" : String).data))
      = s2.data ++ '/' :: (t2.data ++ '/' :: (t2.data ++ (".parquet" : String).data)) := by
    injection hd1
  obtain ⟨hs, hrest⟩ := splitSepUnique _ _ _ _ hs1' hs2' hd2
  obtain ⟨ht, _⟩ := splitSepUnique _ _ _ _ ht1' ht2' hrest
  exact ⟨data_inj hs, data_inj ht⟩

/-- Witness for C4 (amended): a slash-free pair instantiation. -/
theorem C4_path_injective_amended_witness :
    table_s3_path "s3://bkt" "dbo" "users" = "s3://bkt/dbo/users/users.parquet"
    ∧ (("dbo" : String) = "dbo" ∧ ("users" : String) = "users") :=
  ⟨by decide, C4_path_injective_amended "s3://bkt" "dbo" "users" "dbo" "users"
    (by decide) (by decide) (by decide) (by decide) rfl⟩

theorem scanLits_step (c : Char) (cs : List Char) (acc : List (List Char))
    (h : ¬ c = '\x27') : scanLits (c :: cs) acc = scanLits cs acc := by
  simp [scanLits, scanSql, h]

theorem scanLits_quote (cs : List Char) (acc : List (List Char)) :
    scanLits ('\x27' :: cs) acc = scanIn cs [] acc := by
  simp [scanLits, scanIn, scanSql]

theorem scanLits_done (acc : List (List Char)) :
    scanLits [] acc = some (acc.reverse.map (fun l => (⟨l⟩ : String))) := rfl

theorem scanIn_step (c : Char) (cs cur : List Char) (acc : List (List Char))
    (h : ¬ c = '\x27') : scanIn (c :: cs) cur acc = scanIn cs (cur ++ [c]) acc := by
  cases cs with
  | nil => simp [scanIn, scanSql, h]
  | cons c2 rest2 => simp [scanIn, scanSql, h]

theorem scanIn_close_nil (cs cur : List Char) (acc : List (List Char))
    (hcs : cs.head? ≠ some '\x27') :
    scanIn ('\x27' :: cs) cur acc = scanLits cs (cur :: acc) := by
  cases cs with
  | nil => simp [scanIn, scanLits, scanSql]
  | cons c2 rest2 =>
    have h2 : ¬ c2 = '\x27' := by simpa using hcs
    simp [scanIn, scanLits, scanSql, h2]

theorem scanIn_take (l cs cur : List Char) (acc : List (List Char)) (hl : '\x27' ∉ l) :
    scanIn (l ++ cs) cur acc = scanIn cs (cur ++ l) acc := by
  induction l generalizing cur with
  | nil => simp
  | cons c l ih =>
    have hc : ¬ c = '\x27' := fun h => hl (by rw [h]; exact List.mem_cons_self _ _)
    have hl' : '\x27' ∉ l := fun h => hl (List.mem_cons_of_mem _ h)
    rw [List.cons_append, scanIn_step c _ cur acc hc, ih (cur ++ [c]) hl']
    simp

theorem scanIn_close (v cs cur : List Char) (acc : List (List Char))
    (hv : '\x27' ∉ v) (hcs : cs.head? ≠ some '\x27') :
    scanIn (v ++ '\x27' :: cs) cur acc = scanLits cs ((cur ++ v) :: acc) := by
  rw [scanIn_take v _ cur acc hv, scanIn_close_nil cs (cur ++ v) acc hcs]

theorem escapeChars_quote (v : List Char) :
    escapeChars ('\x27' :: v) = '\x27' :: '\x27' :: escapeChars v := by
  simp [escapeChars]

theorem escapeChars_other (c : Char) (v : List Char) (hc : ¬ c = '\x27') :
    escapeChars (c :: v) = c :: escapeChars v := by
  simp [escapeChars, hc]

theorem scanIn_close_esc (v cs cur : List Char) (acc : List (List Char))
    (hcs : cs.head? ≠ some '\x27') :
    scanIn (escapeChars v ++ '\x27' :: cs) cur acc = scanLits cs ((cur ++ v) :: acc) := by
  induction v generalizing cur with
  | nil =>
    have h := scanIn_close [] cs cur acc (by simp) hcs
    simpa [escapeChars] using h
  | cons c v ih =>
    by_cases hc : c = '\x27'
    · subst hc
      rw [escapeChars_quote, List.cons_append, List.cons_append]
      rw [show scanIn ('\x27' :: '\x27' :: (escapeChars v ++ '\x27' :: cs)) cur acc
          = scanIn (escapeChars v ++ '\x27' :: cs) (cur ++ ['\x27']) acc from by
            simp [scanIn, scanSql]]
      rw [ih (cur ++ ['\x27'])]
      simp
    · rw [escapeChars_other c v hc, List.cons_append,
        scanIn_step c _ cur acc hc, ih (cur ++ [c])]
      simp

theorem escapeSq_data (s : String) : (escapeSq s).data = escapeChars s.data := rfl

set_option maxRecDepth 8192 in
theorem insert_log_query_lits (lid schema table full path started : String)
    (hlid : noQuote lid) (hst : noQuote started) :
    parseLits (insert_log_query lid schema table full path started)
      = some [lid, schema, table, full, path, "in_progress", "", started] := by
  have hlid' : '\x27' ∉ lid.data := hlid
  have hst' : '\x27' ∉ started.data := hst
  have hq : (sq : String).data = ['\x27'] := rfl
  have he : ("" : String).data = [] := rfl
  simp only [parseLits, insert_log_query, data_append, hq, he, escapeSq_data,
    List.cons_append, List.append_assoc, List.singleton_append, List.nil_append]
  simp +decide only [scanLits_step, scanLits_quote, scanIn_step, scanIn_close_nil, scanLits_done,
    List.head?_cons, Option.some.injEq, ne_eq]
  rw [scanIn_close lid.data _ _ _ hlid' (by simp)]
  simp +decide only [scanLits_step, scanLits_quote, scanIn_step, scanIn_close_nil, scanLits_done,
    List.head?_cons, Option.some.injEq, ne_eq, List.nil_append]
  rw [scanIn_close_esc schema.data _ _ _ (by simp)]
  simp +decide only [scanLits_step, scanLits_quote, scanIn_step, scanIn_close_nil, scanLits_done,
    List.head?_cons, Option.some.injEq, ne_eq, List.nil_append]
  rw [scanIn_close_esc table.data _ _ _ (by simp)]
  simp +decide only [scanLits_step, scanLits_quote, scanIn_step, scanIn_close_nil, scanLits_done,
    List.head?_cons, Option.some.injEq, ne_eq, List.nil_append]
  rw [scanIn_close_esc full.data _ _ _ (by simp)]
  simp +decide only [scanLits_step, scanLits_quote, scanIn_step, scanIn_close_nil, scanLits_done,
    List.head?_cons, Option.some.injEq, ne_eq, List.nil_append]
  rw [scanIn_close_esc path.data _ _ _ (by simp)]
  simp +decide only [scanLits_step, scanLits_quote, scanIn_step, scanIn_close_nil, scanLits_done,
    List.head?_cons, Option.some.injEq, ne_eq, List.nil_append]
  rw [scanIn_close started.data _ _ _ hst' (by simp)]
  simp +decide only [scanLits_step, scanLits_quote, scanIn_step, scanIn_close_nil, scanLits_done,
    List.head?_cons, Option.some.injEq, ne_eq, List.nil_append]
  simp [mk_data]

set_option maxRecDepth 8192 in
theorem save_query_lits (path content : String) (hp : noQuote path) :
    parseLits (save_query path content) = some [content, path, "csv"] := by
  have hp' : '\x27' ∉ path.data := hp
  have hq : (sq : String).data = ['\x27'] := rfl
  simp only [parseLits, save_query, data_append, hq, escapeSq_data,
    List.cons_append, List.append_assoc, List.singleton_append, List.nil_append]
  simp +decide only [scanLits_step, scanLits_quote, scanIn_step, scanIn_close_nil, scanLits_done,
    List.head?_cons, Option.some.injEq, ne_eq]
  rw [scanIn_close_esc content.data _ _ _ (by simp)]
  simp +decide only [scanLits_step, scanLits_quote, scanIn_step, scanIn_close_nil, scanLits_done,
    List.head?_cons, Option.some.injEq, ne_eq, List.nil_append]
  rw [scanIn_close path.data _ _ _ hp' (by simp)]
  simp +decide only [scanLits_step, scanLits_quote, scanIn_step, scanIn_close_nil, scanLits_done,
    List.head?_cons, Option.some.injEq, ne_eq, List.nil_append]
  simp [mk_data]

set_option maxRecDepth 8192 in
theorem odbc_scan_function_lits (conn query : String) :
    parseLits (odbc_scan_function conn query) = some [conn, query] := by
  have hq : (sq : String).data = ['\x27'] := rfl
  simp only [parseLits, odbc_scan_function, data_append, hq, escapeSq_data,
    List.cons_append, List.append_assoc, List.singleton_append, List.nil_append]
  simp +decide only [scanLits_step, scanLits_quote, scanIn_step, scanIn_close_nil, scanLits_done,
    List.head?_cons, Option.some.injEq, ne_eq]
  rw [scanIn_close_esc conn.data _ _ _ (by simp)]
  simp +decide only [scanLits_step, scanLits_quote, scanIn_step, scanIn_close_nil, scanLits_done,
    List.head?_cons, Option.some.injEq, ne_eq, List.nil_append]
  rw [scanIn_close_esc query.data _ _ _ (by simp)]
  simp +decide only [scanLits_step, scanLits_quote, scanIn_step, scanIn_close_nil, scanLits_done,
    List.head?_cons, Option.some.injEq, ne_eq, List.nil_append]
  simp [mk_data]

/-- C6 counterexample: a destination path containing a single quote is
interpolated into the COPY statement without the escaping rule, so the
built text differs from the fully-escaped build and its literals no longer
parse back to the inputs. -/
theorem C6_counterexample :
    save_query "s3://bkt/o\x27brien/t.parquet" "v"
        ≠ save_query_spec "s3://bkt/o\x27brien/t.parquet" "v"
    ∧ parseLits (save_query "s3://bkt/o\x27brien/t.parquet" "v")
        ≠ some ["v", "s3://bkt/o\x27brien/t.parquet", "csv"] :=
  ⟨by decide, by decide⟩

/-- C6 amended: single quotes are doubled in the ledger-field, blob-content
and ODBC connection/query interpolations — the literals of those generated
statements parse back to exactly the raw inputs — but the destination path
reaches its COPY ... TO literal unescaped (it round-trips only when it
contains no quote), and identifier quoting interpolates the identifier
verbatim without escaping embedded quote characters. -/
theorem C6_escaping_amended (lid schema table full path started content conn query p2 : String)
    (hlid : noQuote lid) (hst : noQuote started) (hp : noQuote p2) :
    parseLits (insert_log_query lid schema table full path started)
        = some [lid, schema, table, full, path, "in_progress", "", started]
    ∧ parseLits (save_query p2 content) = some [content, p2, "csv"]
    ∧ parseLits (odbc_scan_function conn query) = some [conn, query]
    ∧ quoteIdent "O\"Brien" = "\"O\"Brien\"" :=
  ⟨insert_log_query_lits lid schema table full path started hlid hst,
   save_query_lits p2 content hp,
   odbc_scan_function_lits conn query,
   by decide⟩

/-- Witness for C6 (amended): ledger fields with embedded quotes survive
the escaping round trip. -/
theorem C6_escaping_amended_witness :
    parseLits (insert_log_query "id-1" "sch\x27ma" "O\x27Brien" "sch\x27ma.O\x27Brien"
        "s3://b/t.parquet" "2024-01-01")
      = some ["id-1", "sch\x27ma", "O\x27Brien", "sch\x27ma.O\x27Brien", "s3://b/t.parquet",
          "in_progress", "", "2024-01-01"] :=
  (C6_escaping_amended "id-1" "sch\x27ma" "O\x27Brien" "sch\x27ma.O\x27Brien" "s3://b/t.parquet"
    "2024-01-01" "c" "conn" "q" "p" (by decide) (by decide) (by decide)).1

theorem replaceS3_id (l : List Char) (h : containsS3 l = false) : replaceS3Chars l = l := by
  induction l using replaceS3Chars.induct <;> simp_all [replaceS3Chars, containsS3]

theorem pyReplaceS3_scheme (rest : String) (h : containsS3 rest.data = false) :
    pyReplaceS3 ("s3://" ++ rest) = "local_export/" ++ rest := by
  have h1 : ("s3://" ++ rest).data = 's' :: '3' :: ':' :: '/' :: '/' :: rest.data := by
    simp [data_append]
  unfold pyReplaceS3
  rw [h1]
  rw [show replaceS3Chars ('s' :: '3' :: ':' :: '/' :: '/' :: rest.data)
      = "local_export/".data ++ replaceS3Chars rest.data from by simp [replaceS3Chars]]
  rw [replaceS3_id rest.data h, ← data_append, mk_data]

/-- C5 counterexample: with the source connected and metadata extracted,
a failing remote metadata write whose local fallback also fails makes the
whole run exit 1 — the fallback failure does abort the run, contradicting
the claim. -/
theorem C5_counterexample :
    c5RunEnv.connectErr = none ∧ c5RunEnv.metadataResult = Except.ok {}
    ∧ (run exCfg c5RunEnv).exitCode = 1 :=
  ⟨rfl, rfl, by decide⟩

/-- C5 amended: when the remote write fails and the fallback succeeds, the
content is written byte-for-byte to the path obtained by replacing every
occurrence of the scheme `s3://` with `local_export/` (for a path whose
scheme occurs only as its head this is exactly the head rewrite), with the
parent directory created; when the fallback itself fails the error
propagates to the caller instead of being swallowed. -/
theorem C5_fallback_amended (path content rest : String)
    (hnc : containsS3 rest.data = false) :
    save_to_s3 path content true false
        = ([BlobEffect.mkdirs (dirname (pyReplaceS3 path)),
            BlobEffect.localWrite (pyReplaceS3 path) content], Except.ok ())
    ∧ (save_to_s3 path content true true).2
        = Except.error ("fallback write failed: " ++ path)
    ∧ pyReplaceS3 ("s3://" ++ rest) = "local_export/" ++ rest :=
  ⟨by simp [save_to_s3], by simp [save_to_s3], pyReplaceS3_scheme rest hnc⟩

/-- Witness for C5 (amended): a concrete fallback write. -/
theorem C5_fallback_amended_witness :
    (save_to_s3 "s3://bkt/metadata/m.json" "payload" true false).1
        = [BlobEffect.mkdirs "local_export/bkt/metadata",
           BlobEffect.localWrite "local_export/bkt/metadata/m.json" "payload"]
    ∧ (save_to_s3 "s3://bkt/metadata/m.json" "payload" true true).2
        = Except.error ("fallback write failed: " ++ "s3://bkt/metadata/m.json")
    ∧ pyReplaceS3 ("s3://" ++ "bkt/metadata/m.json") = "local_export/" ++ "bkt/metadata/m.json" := by
  have h := C5_fallback_amended "s3://bkt/metadata/m.json" "payload" "bkt/metadata/m.json" (by decide)
  refine ⟨?_, h.2.1, h.2.2⟩
  rw [h.1]
  decide

/-- C8: an engine outside sqlserver/postgresql/oracle makes both the
source-connection dispatch and the scan-adapter resolution fail with the
corresponding error instead of producing a connection or a scan spec. -/
theorem C8_unsupported_engine (db : String)
    (h1 : db ≠ "sqlserver") (h2 : db ≠ "postgresql") (h3 : db ≠ "oracle") :
    connect_to_source db = Except.error ("Unsupported database type: " ++ db)
    ∧ ∀ (cfg : Config) (t : TableInfo) (so : String), cfg.db_type = db →
        build_scan_spec cfg t so = Except.error ("Scanner not available for " ++ db) := by
  constructor
  · simp [connect_to_source, h1, h2, h3]
  · intro cfg t so hdb
    simp [build_scan_spec, hdb, h1, h2, h3]

/-- Witness for C8: the engine `mysql`. -/
theorem C8_unsupported_engine_witness :
    connect_to_source "mysql" = Except.error ("Unsupported database type: " ++ "mysql")
    ∧ build_scan_spec mysqlCfg exTable "" = Except.error ("Scanner not available for " ++ "mysql") := by
  have h := C8_unsupported_engine "mysql" (by decide) (by decide) (by decide)
  exact ⟨h.1, h.2 mysqlCfg exTable "" rfl⟩

theorem map_update_skip (logs : List LedgerEntry) (lid : Nat) (s m : String)
    (h : ∀ e ∈ logs, e.id ≠ lid) :
    logs.map (fun e => if e.id = lid then { e with status := s, message := m } else e) = logs := by
  induction logs with
  | nil => rfl
  | cons x xs ih =>
    have hx : x.id ≠ lid := h x (List.mem_cons_self _ _)
    have hxs : ∀ e ∈ xs, e.id ≠ lid := fun e he => h e (List.mem_cons_of_mem _ he)
    simp [hx, ih hxs]

theorem scan_ok_of_supported (cfg : Config) (t : TableInfo) (so : String)
    (heng : supportedEngine cfg) :
    ∀ err, build_scan_spec cfg t so ≠ Except.error err := by
  intro err hcontra
  rcases heng with h | h | h <;> simp [build_scan_spec, h] at hcontra

theorem export_table_data_ok (cfg : Config) (st : ExportState) (t : TableInfo) (env : TableEnv)
    (h1 : env.startLogErr = none) (h2 : env.endLogErr = false)
    (heng : supportedEngine cfg)
    (hfresh : ∀ e ∈ st.logs, e.id < st.nextId) :
    export_table_data cfg st t env
      = ({ logs := st.logs ++ [expectedEntry cfg.s3_bucket_path st.nextId t env],
           nextId := st.nextId + 1 },
         match env.transferErr with
         | some e => Except.error e
         | none => Except.ok ()) := by
  have hne : ∀ e ∈ st.logs, e.id ≠ st.nextId := fun e he => Nat.ne_of_lt (hfresh e he)
  unfold export_table_data
  rw [h1, h2]
  cases hscan : build_scan_spec cfg t (get_table_sort_order t) with
  | error err => exact absurd hscan (scan_ok_of_supported cfg t _ heng err)
  | ok sp =>
    cases ht : env.transferErr with
    | some e =>
      simp only [finish_log, log_export_end, log_export_start, if_neg, Bool.false_eq_true,
        ite_false]
      simp [map_update_skip st.logs st.nextId _ _ hne, expectedEntry, ht, hscan]
    | none =>
      simp only [finish_log, log_export_end, log_export_start, Bool.false_eq_true, ite_false]
      simp [map_update_skip st.logs st.nextId _ _ hne, expectedEntry, ht, hscan]

theorem export_loop_logs (cfg : Config) (tables : List TableInfo) :
    ∀ (envs : Nat → TableEnv) (st : ExportState) (i : Nat),
    supportedEngine cfg →
    (∀ j, (envs j).startLogErr = none ∧ (envs j).endLogErr = false) →
    (∀ e ∈ st.logs, e.id < st.nextId) →
    (export_tables_loop cfg st tables envs i).logs
      = st.logs ++ expectedEntries cfg.s3_bucket_path st.nextId tables envs i := by
  induction tables with
  | nil =>
    intro envs st i _ _ _
    simp [export_tables_loop, expectedEntries]
  | cons t rest ih =>
    intro envs st i heng hled hfresh
    rw [show export_tables_loop cfg st (t :: rest) envs i
        = export_tables_loop cfg (export_table_data cfg st t (envs i)).1 rest envs (i + 1)
        from rfl]
    rw [export_table_data_ok cfg st t (envs i) (hled i).1 (hled i).2 heng hfresh]
    rw [ih envs _ (i + 1) heng hled ?fresh]
    case fresh =>
      intro e he
      rcases List.mem_append.mp he with h | h
      · exact Nat.lt_succ_of_lt (hfresh e h)
      · simp only [List.mem_singleton] at h
        subst h
        simp [expectedEntry]
    simp [expectedEntries, List.append_assoc]

theorem log_end_start_terminal (st : ExportState) (t : TableInfo) (p s m : String)
    (hs : s = "success" ∨ s = "failed")
    (hfresh : ∀ e ∈ st.logs, e.id < st.nextId)
    (hterm : ∀ e ∈ st.logs, e.status = "success" ∨ e.status = "failed") :
    (∀ e ∈ (log_export_end (log_export_start st t p).1 (log_export_start st t p).2 s m).logs,
        e.status = "success" ∨ e.status = "failed")
    ∧ (∀ e ∈ (log_export_end (log_export_start st t p).1 (log_export_start st t p).2 s m).logs,
        e.id < (log_export_end (log_export_start st t p).1 (log_export_start st t p).2 s m).nextId) := by
  have hne : ∀ e ∈ st.logs, e.id ≠ st.nextId := fun e he => Nat.ne_of_lt (hfresh e he)
  unfold log_export_start log_export_end
  simp only [List.map_append, map_update_skip st.logs st.nextId _ _ hne]
  constructor
  · intro e he
    rcases List.mem_append.mp he with h | h
    · exact hterm e h
    · simp at h
      subst h
      simpa using hs
  · intro e he
    rcases List.mem_append.mp he with h | h
    · exact Nat.lt_succ_of_lt (hfresh e h)
    · simp at h
      subst h
      simp

theorem export_table_data_terminal (cfg : Config) (st : ExportState) (t : TableInfo)
    (env : TableEnv) (hend : env.endLogErr = false)
    (hfresh : ∀ e ∈ st.logs, e.id < st.nextId)
    (hterm : ∀ e ∈ st.logs, e.status = "success" ∨ e.status = "failed") :
    (∀ e ∈ (export_table_data cfg st t env).1.logs,
        e.status = "success" ∨ e.status = "failed")
    ∧ (∀ e ∈ (export_table_data cfg st t env).1.logs,
        e.id < (export_table_data cfg st t env).1.nextId) := by
  unfold export_table_data
  cases hs : env.startLogErr with
  | some err =>
    cases hsc : build_scan_spec cfg t (get_table_sort_order t) <;>
      cases htr : env.transferErr <;>
      simp only [finish_log, hs, hsc, htr] <;>
      exact ⟨hterm, hfresh⟩
  | none =>
    cases hsc : build_scan_spec cfg t (get_table_sort_order t) with
    | error e =>
      simp only [finish_log, hs, hsc, hend, Bool.false_eq_true, if_false]
      exact log_end_start_terminal st t (table_s3_path cfg.s3_bucket_path t.schema t.name)
        "failed" e (Or.inr rfl) hfresh hterm
    | ok sp =>
      cases htr : env.transferErr with
      | some e =>
        simp only [finish_log, hs, hsc, htr, hend, Bool.false_eq_true, if_false]
        exact log_end_start_terminal st t (table_s3_path cfg.s3_bucket_path t.schema t.name)
          "failed" e (Or.inr rfl) hfresh hterm
      | none =>
        simp only [finish_log, hs, hsc, htr, hend, Bool.false_eq_true, if_false]
        exact log_end_start_terminal st t (table_s3_path cfg.s3_bucket_path t.schema t.name)
          "success" ("Exported to " ++ table_s3_path cfg.s3_bucket_path t.schema t.name)
          (Or.inl rfl) hfresh hterm

theorem export_loop_terminal (cfg : Config) (tables : List TableInfo) :
    ∀ (envs : Nat → TableEnv) (st : ExportState) (i : Nat),
    (∀ j, (envs j).endLogErr = false) →
    (∀ e ∈ st.logs, e.id < st.nextId) →
    (∀ e ∈ st.logs, e.status = "success" ∨ e.status = "failed") →
    ∀ e ∈ (export_tables_loop cfg st tables envs i).logs,
        e.status = "success" ∨ e.status = "failed" := by
  induction tables with
  | nil =>
    intro envs st i _ _ hterm
    simpa [export_tables_loop] using hterm
  | cons t rest ih =>
    intro envs st i hend hfresh hterm
    rw [show export_tables_loop cfg st (t :: rest) envs i
        = export_tables_loop cfg (export_table_data cfg st t (envs i)).1 rest envs (i + 1)
        from rfl]
    obtain ⟨ht, hf⟩ := export_table_data_terminal cfg st t (envs i) (hend i) hfresh hterm
    exact ih envs _ (i + 1) hend hf ht

theorem export_table_data_take (cfg : Config) (st : ExportState) (t : TableInfo)
    (env : TableEnv) (hfresh : ∀ e ∈ st.logs, e.id < st.nextId) :
    (export_table_data cfg st t env).1.logs.take st.logs.length = st.logs := by
  have hne : ∀ e ∈ st.logs, e.id ≠ st.nextId := fun e he => Nat.ne_of_lt (hfresh e he)
  unfold export_table_data
  cases hs : env.startLogErr with
  | some err =>
    cases hsc : build_scan_spec cfg t (get_table_sort_order t) <;>
      cases htr : env.transferErr <;>
      simp [finish_log, hs, hsc, htr, List.take_length]
  | none =>
    cases hend : env.endLogErr <;>
      cases hsc : build_scan_spec cfg t (get_table_sort_order t) <;>
      cases htr : env.transferErr <;>
      simp [finish_log, log_export_start, log_export_end, hs, hsc, htr, hend,
        List.map_append, map_update_skip st.logs st.nextId _ _ hne, List.take_left]

/-- C10: a failure while recording the ledger start or finish is swallowed:
it never changes the export result (transfer still runs, success or error
message unchanged), and a failed start simply leaves no ledger row. -/
theorem C10_ledger_failure_tolerance (cfg : Config) (st : ExportState) (t : TableInfo)
    (f : Option String) (err : String) (b : Bool) :
    (export_table_data cfg st t { startLogErr := some err, transferErr := f, endLogErr := b }).2
      = (export_table_data cfg st t { startLogErr := none, transferErr := f, endLogErr := false }).2
    ∧ (export_table_data cfg st t { startLogErr := some err, transferErr := f, endLogErr := b }).1
      = st
    ∧ (export_table_data cfg st t { startLogErr := none, transferErr := f, endLogErr := true }).2
      = (export_table_data cfg st t { startLogErr := none, transferErr := f, endLogErr := false }).2 := by
  unfold export_table_data
  cases hsc : build_scan_spec cfg t (get_table_sort_order t) <;> cases f <;>
    simp [finish_log, hsc]

/-- C1: per-table failure isolation.  With a supported engine and a healthy
ledger, the loop records one row per table in discovery order — `failed`
with the raised message exactly where the transfer raised, `success` with
the destination otherwise — and the run exit code never depends on the
per-table fates: it is 0 whenever initialization, connection and the
metadata phase succeed. -/
theorem C1_failure_isolation (cfg : Config) (tables : List TableInfo) (envs : Nat → TableEnv)
    (heng : supportedEngine cfg)
    (hled : ∀ j, (envs j).startLogErr = none ∧ (envs j).endLogErr = false) :
    (export_tables_loop cfg {} tables envs 0).logs
        = expectedEntries cfg.s3_bucket_path 0 tables envs 0
    ∧ (∀ (env : RunEnv) (tA tB : Nat → TableEnv),
        (run cfg { env with tableEnvs := tA }).exitCode
          = (run cfg { env with tableEnvs := tB }).exitCode)
    ∧ (∀ (env : RunEnv) (md : Metadata), env.initErr = none → env.connectErr = none →
        env.metadataResult = Except.ok md →
        (saveSeq (artifactItems cfg md env.timestamp env.metadataJson)
            env.blobRemoteFails env.blobLocalFails).2 = Except.ok () →
        (run cfg env).exitCode = 0) := by
  refine ⟨?_, ?_, ?_⟩
  · have h := export_loop_logs cfg tables envs {} 0 heng hled (by intro e he; cases he)
    simpa using h
  · intro env tA tB
    obtain ⟨ie, ce, mr, mj, ts, brf, blf, te⟩ := env
    unfold run
    dsimp only
    cases ie with
    | some e => rfl
    | none =>
      cases hcs : connect_to_source cfg.db_type with
      | error e => rfl
      | ok k =>
        cases ce with
        | some e => rfl
        | none =>
          cases mr with
          | error e => rfl
          | ok md =>
            dsimp only
            cases (saveSeq (artifactItems cfg md ts mj) brf blf).2 <;> rfl
  · intro env md hi hc hm hs
    obtain ⟨ie, ce, mr, mj, ts, brf, blf, te⟩ := env
    simp only at hi hc hm hs
    subst hi hc hm
    obtain ⟨k, hk⟩ : ∃ k, connect_to_source cfg.db_type = Except.ok k := by
      rcases heng with h | h | h <;> rw [h] <;> exact ⟨_, rfl⟩
    unfold run
    rw [hk]
    simp only [hs]

/-- Witness for C1: three tables where only the second transfer raises;
the ledger records success, failed (with the message), success. -/
theorem C1_failure_isolation_witness :
    (export_tables_loop exCfg {} [exTable1, exTable2, exTable3] exEnvs 0).logs
        = expectedEntries "s3://bkt" 0 [exTable1, exTable2, exTable3] exEnvs 0
    ∧ ((export_tables_loop exCfg {} [exTable1, exTable2, exTable3] exEnvs 0).logs.map
          (fun e => (e.full_name, e.status, e.message)))
        = [("sales.orders", "success", "Exported to s3://bkt/sales/orders/orders.parquet"),
           ("sales.items", "failed", "boom"),
           ("sales.legacy", "success", "Exported to s3://bkt/sales/legacy/legacy.parquet")] := by
  have h := C1_failure_isolation exCfg [exTable1, exTable2, exTable3] exEnvs
    (Or.inl rfl)
    (by intro j
        constructor <;> (by_cases hj : j = 1 <;> simp [exEnvs, hj]))
  exact ⟨h.1, by decide⟩

/-- C7: ledger lifecycle.  Every row is inserted with status
`in_progress`; the finish operation only mutates status and message and
never removes a row; a table export preserves all previously recorded rows
as an unchanged prefix; and when the finish operation never raises, every
row left after a full run is `success` or `failed`. -/
theorem C7_ledger_lifecycle :
    (∀ (st : ExportState) (t : TableInfo) (p : String),
        (log_export_start st t p).1.logs = st.logs ++ [startEntry st t p]
          ∧ (startEntry st t p).status = "in_progress")
    ∧ (∀ (st : ExportState) (lid : Nat) (s m : String),
        (log_export_end st lid s m).logs.map
            (fun e => (e.id, e.schema, e.table_name, e.full_name, e.s3_path))
          = st.logs.map (fun e => (e.id, e.schema, e.table_name, e.full_name, e.s3_path)))
    ∧ (∀ (cfg : Config) (st : ExportState) (t : TableInfo) (env : TableEnv),
        (∀ e ∈ st.logs, e.id < st.nextId) →
        (export_table_data cfg st t env).1.logs.take st.logs.length = st.logs)
    ∧ (∀ (cfg : Config) (env : RunEnv),
        (∀ j, (env.tableEnvs j).endLogErr = false) →
        ∀ e ∈ (run cfg env).logs, e.status = "success" ∨ e.status = "failed") := by
  refine ⟨fun st t p => ⟨rfl, rfl⟩, ?_, ?_, ?_⟩
  · intro st lid s m
    unfold log_export_end
    rw [List.map_map]
    refine List.map_congr_left ?_
    intro e _
    by_cases h : e.id = lid <;> simp [h]
  · intro cfg st t env hfresh
    exact export_table_data_take cfg st t env hfresh
  · intro cfg env hend e he
    simp only [run] at he
    repeat' split at he
    all_goals try dsimp only at he
    all_goals
      first
        | exact absurd he (List.not_mem_nil e)
        | exact export_loop_terminal cfg _ env.tableEnvs {} 0 hend
            (fun x hx => absurd hx (List.not_mem_nil x))
            (fun x hx => absurd hx (List.not_mem_nil x)) e he

/-- Witness for C7: in a run whose only table export fails while the
ledger stays healthy, the remaining row is terminal. -/
theorem C7_ledger_lifecycle_witness :
    c7Entry.status = "success" ∨ c7Entry.status = "failed" :=
  C7_ledger_lifecycle.2.2.2 exCfg c7RunEnv (fun _ => rfl) c7Entry (by decide)

end DuckdbExport
